import Mathlib

/-!
Verification of the feedburst orchestrator (src/main.rs).

The repository ships a single source file, src/main.rs, which drives the
per-feed fetch / merge / readiness / present / commit cycle.  The modules
it references (mod parser; mod feed) are not part of the sources given,
so the Feed record and its methods are modelled from the specification
(sections 3, 4.2, 4.3) where a claim needs them; everything else below is
a shallow embedding of main.rs itself.

Effectful collaborator calls (HTTP fetch, file open, opening a link in a
browser, writing the record file) are modelled by oracle outcomes carried
in the input (FeedStep, ReadFeedEnv), and the functions return the list
of observable effects they perform, mirroring the order of operations in
the Rust source.
-/

/-- Subscription identity, from main.rs use of feed_info.name / feed_info.url. -/
structure FeedInfo where
  name : String
  url : String
deriving DecidableEq, Repr

/-- Modelled from the spec: the feed module (src/feed.rs) is absent from the
given sources.  Per section 3, a FeedRecord has the ordered oldest-first
known_links, a read_count cursor with 0 ≤ read_count ≤ len(known_links),
and a last_read_at timestamp.  The Feed value of main.rs couples this
record with its FeedInfo.  is_ready is the value the missing feed
module's is_ready() method returns for this feed this run; its policy
evaluation (section 4.3) is not at issue in any claim, so it is kept as
an opaque boolean field rather than recomputed. -/
structure Feed where
  info : FeedInfo
  knownLinks : List String
  readCount : Nat
  lastReadAt : Nat
  isReady : Bool
deriving DecidableEq, Repr

/-- Modelled from the spec: the reading list (the batch) is the full unread
suffix known_links[read_count ..] (sections 3, 4.3 evaluate, glossary
Batch). -/
def Feed.get_reading_list (feed : Feed) : List String :=
  feed.knownLinks.drop feed.readCount

/-- Modelled from the spec: mark_consumed (section 4.3) sets
read_count = len(known_links) and last_read_at = now.  This is the
feed.read() call of main.rs line 171. -/
def Feed.read (feed : Feed) (now : Nat) : Feed :=
  { feed with readCount := feed.knownLinks.length, lastReadAt := now }

/-- Observable effects of a run, in the order main.rs performs them. -/
inductive Effect where
  /-- The reqwest::get HTTP fetch at the top of fetch_feed (main.rs line 111). -/
  | fetchAttempt (name : String) (url : String)
  /-- feed_info_file: opening the per-feed record file (main.rs line 159). -/
  | openDataFile (name : String)
  /-- A println! line (main.rs lines 71, 79, 86, 169). -/
  | printLine (line : String)
  /-- The open::that browser call (main.rs line 170). -/
  | openLink (url : String)
  /-- feed.write_changes: overwriting the durable record (main.rs line 172). -/
  | writeRecord (name : String) (links : List String) (readCount : Nat) (lastReadAt : Nat)
deriving DecidableEq, Repr

/-- True exactly for openLink effects. -/
def Effect.isOpenLink : Effect → Bool
  | Effect.fetchAttempt _ _ => false
  | Effect.openDataFile _ => false
  | Effect.printLine _ => false
  | Effect.openLink _ => true
  | Effect.writeRecord _ _ _ _ => false

/-- True exactly for writeRecord effects. -/
def Effect.isWrite : Effect → Bool
  | Effect.fetchAttempt _ _ => false
  | Effect.openDataFile _ => false
  | Effect.printLine _ => false
  | Effect.openLink _ => false
  | Effect.writeRecord _ _ _ _ => true

/-- Oracle outcomes for the fallible operations inside read_feed
(main.rs lines 158-174): the feed_info_file open, the open::that call,
and feed.write_changes; now is the timestamp feed.read() records.
Error strings are the Display rendering of the Rust error values. -/
structure ReadFeedEnv where
  fileOpen : Except String Unit
  openLink : Except String Unit
  write : Except String Unit
  now : Nat

/-- The singular/plural choice of main.rs lines 164-168. -/
def plural_feeds (n : Nat) : String :=
  if n == 1 then "comic" else "comics"

/-- Shallow embedding of read_feed (main.rs lines 158-174): open the record
file, return Ok early on an empty reading list, otherwise print the batch
line, open the first (oldest unread) link, and only then mark the feed
read and write the record back.  Returns the effect trace, the resulting
in-memory Feed, and the Result value. -/
def read_feed (env : ReadFeedEnv) (feed : Feed) :
    List Effect × Feed × Except String Unit :=
  match env.fileOpen with
  | Except.error e => ([], feed, Except.error e)
  | Except.ok _ =>
    let tr0 := [Effect.openDataFile feed.info.name]
    let items := feed.get_reading_list
    if items.length == 0 then
      (tr0, feed, Except.ok ())
    else
      let line := feed.info.name ++ " (" ++ toString items.length ++ " "
        ++ plural_feeds items.length ++ ")"
      let tr1 := tr0 ++ [Effect.printLine line, Effect.openLink (items.headD "")]
      match env.openLink with
      | Except.error e => (tr1, feed, Except.error e)
      | Except.ok _ =>
        let feed2 := feed.read env.now
        match env.write with
        | Except.error e => (tr1, feed2, Except.error e)
        | Except.ok _ =>
          (tr1 ++ [Effect.writeRecord feed2.info.name feed2.knownLinks
            feed2.readCount feed2.lastReadAt], feed2, Except.ok ())

/-- One subscription of the parsed config together with the oracle outcomes
of its collaborator calls this run: fetch is the result of
fetch_feed(feed_info) (main.rs line 68), whose network and storage work is
summarized by its returned Feed or Display-rendered error; readEnv feeds
read_feed if it is invoked. -/
structure FeedStep where
  info : FeedInfo
  fetch : Except String Feed
  readEnv : ReadFeedEnv

/-- The loop guard of main.rs line 76 as seen from the step oracle. -/
def stepReady (step : FeedStep) : Bool :=
  match step.fetch with
  | Except.ok feed => feed.isReady
  | Except.error _ => false

/-- One iteration of the feed loop (main.rs lines 67-82): fetch, on error
print the per-feed error line and continue; if the feed is ready and we
are not in fetch-only mode, count it read and run read_feed, printing the
per-feed error line if that fails.  Returns the effects and the amount
num_read is incremented by. -/
def processFeed (of : Bool) (step : FeedStep) : List Effect × Nat :=
  match step.fetch with
  | Except.error err =>
    ([Effect.fetchAttempt step.info.name step.info.url,
      Effect.printLine ("Error in feed " ++ step.info.name ++ ": " ++ err)], 0)
  | Except.ok feed =>
    if feed.isReady && !of then
      let r := read_feed step.readEnv feed
      match r.2.2 with
      | Except.ok _ =>
        (Effect.fetchAttempt step.info.name step.info.url :: r.1, 1)
      | Except.error err =>
        (Effect.fetchAttempt step.info.name step.info.url :: r.1
          ++ [Effect.printLine ("Error in feed " ++ feed.info.name ++ ": " ++ err)], 1)
    else
      ([Effect.fetchAttempt step.info.name step.info.url], 0)

/-- The whole feed loop of main.rs lines 66-82, accumulating effects in
order and the final num_read count. -/
def processFeeds (of : Bool) : List FeedStep → List Effect × Nat
  | [] => ([], 0)
  | step :: rest =>
    let r := processFeed of step
    let rs := processFeeds of rest
    (r.1 ++ rs.1, r.2 + rs.2)

/-- Model of clap 2.x ArgMatches::value_of for the fetch argument: main.rs
lines 48-52 declare the fetch Arg without takes_value(true), so it is a
bare flag; clap records its presence but stores no value, and value_of
returns None whether or not the flag occurred on the command line. -/
def value_of_fetch (_fetchFlagPresent : Bool) : Option String :=
  none

/-- only_fetch as computed by main.rs line 56:
matches.value_of("fetch").is_some(). -/
def only_fetch (fetchFlagPresent : Bool) : Bool :=
  (value_of_fetch fetchFlagPresent).isSome

/-- The body of run (main.rs lines 55-89) after only_fetch is computed:
cfg is the combined result of get_config, reading the config file and
parser::parse_config (any of their failures propagates with ?, line
55-63, before the loop); on success the loop runs and, when num_read is 0
and we are not in fetch-only mode, the no-new-comics line is printed. -/
def runWith (of : Bool) (cfg : Except String (List FeedStep)) :
    List Effect × Except String Unit :=
  match cfg with
  | Except.error e => ([], Except.error e)
  | Except.ok steps =>
    let r := processFeeds of steps
    if r.2 == 0 && !of then
      (r.1 ++ [Effect.printLine "No new comics. Check back tomorrow!"], Except.ok ())
    else
      (r.1, Except.ok ())

/-- run (main.rs lines 35-90): parse arguments, compute only_fetch, then
the body above. -/
def run (fetchFlagPresent : Bool) (cfg : Except String (List FeedStep)) :
    List Effect × Except String Unit :=
  runWith (only_fetch fetchFlagPresent) cfg

/-- The exit code chosen by main (main.rs lines 25-33): 0 on Ok, 1 on Err. -/
def exit_code (r : Except String Unit) : Nat :=
  match r with
  | Except.ok _ => 0
  | Except.error _ => 1

/-- A link element of an Atom entry (the syndication crate's data, as used
by main.rs line 123). -/
structure AtomLink where
  href : String
deriving DecidableEq, Repr

/-- An Atom entry: main.rs uses only its links list. -/
structure AtomEntry where
  links : List AtomLink
deriving DecidableEq, Repr

/-- An RSS item: main.rs uses only its optional link. -/
structure RssItem where
  link : Option String
deriving DecidableEq, Repr

/-- The Atom arm of fetch_feed (main.rs lines 118-126):
entries.into_iter().rev().filter_map(first link).map(href). -/
def atom_feed_links (entries : List AtomEntry) : List String :=
  (entries.reverse.filterMap (fun e => e.links.head?)).map (fun l => l.href)

/-- The RSS arm of fetch_feed (main.rs lines 127-134):
items.into_iter().rev().filter_map(link). -/
def rss_feed_links (items : List RssItem) : List String :=
  items.reverse.filterMap (fun i => i.link)

/-- The same Atom link extraction in document (wire) order, without rev(). -/
def atom_document_links (entries : List AtomEntry) : List String :=
  (entries.filterMap (fun e => e.links.head?)).map (fun l => l.href)

/-- The same RSS link extraction in document (wire) order, without rev(). -/
def rss_document_links (items : List RssItem) : List String :=
  items.filterMap (fun i => i.link)

/-! Helper lemmas about the feed loop, shared by several claims. -/

/-- The loop over an appended list of subscriptions performs the effects of
both halves in order and adds their counts. -/
theorem processFeeds_append (of : Bool) (s1 s2 : List FeedStep) :
    processFeeds of (s1 ++ s2) =
      ((processFeeds of s1).1 ++ (processFeeds of s2).1,
       (processFeeds of s1).2 + (processFeeds of s2).2) := by
  induction s1 with
  | nil => simp [processFeeds]
  | cons a t ih => simp [processFeeds, ih, Nat.add_assoc]

/-- Any effect performed for a member subscription appears in the loop's
trace. -/
theorem mem_processFeeds_of_mem (of : Bool) (steps : List FeedStep)
    (step : FeedStep) (hs : step ∈ steps) (e : Effect)
    (he : e ∈ (processFeed of step).1) :
    e ∈ (processFeeds of steps).1 := by
  induction steps with
  | nil => cases hs
  | cons a t ih =>
    rcases List.mem_cons.mp hs with h | h
    · subst h
      simp [processFeeds, List.mem_append]
      exact Or.inl he
    · simp [processFeeds, List.mem_append]
      exact Or.inr (ih h)

/-- Any effect in the loop's trace appears in the run's trace. -/
theorem mem_runWith_of_mem (of : Bool) (steps : List FeedStep) (e : Effect)
    (he : e ∈ (processFeeds of steps).1) :
    e ∈ (runWith of (Except.ok steps)).1 := by
  simp only [runWith]
  split
  · exact List.mem_append.mpr (Or.inl he)
  · exact he

/-- A subscription that is not ready (or whose fetch failed) does not
increment num_read. -/
theorem processFeed_count_of_not_ready (of : Bool) (step : FeedStep)
    (h : stepReady step = false) : (processFeed of step).2 = 0 := by
  cases hf : step.fetch with
  | error e => simp [processFeed, hf]
  | ok feed =>
    have hr : feed.isReady = false := by simpa [stepReady, hf] using h
    simp [processFeed, hf, hr]

/-- In default mode a ready subscription increments num_read by one,
whatever its presentation outcome. -/
theorem processFeed_count_of_ready (step : FeedStep)
    (h : stepReady step = true) : (processFeed false step).2 = 1 := by
  cases hf : step.fetch with
  | error e => simp [stepReady, hf] at h
  | ok feed =>
    have hr : feed.isReady = true := by simpa [stepReady, hf] using h
    cases hrr : (read_feed step.readEnv feed).2.2 with
    | ok u => simp [processFeed, hf, hr, hrr]
    | error e => simp [processFeed, hf, hr, hrr]

/-- If no subscription is ready the loop counts zero reads. -/
theorem processFeeds_count_zero (of : Bool) (steps : List FeedStep)
    (h : ∀ step ∈ steps, stepReady step = false) :
    (processFeeds of steps).2 = 0 := by
  induction steps with
  | nil => rfl
  | cons a t ih =>
    have ha := processFeed_count_of_not_ready of a (h a (List.mem_cons_self a t))
    have ht := ih (fun s hs => h s (List.mem_cons_of_mem a hs))
    simp [processFeeds, ha, ht]

/-- If some subscription is ready the default-mode loop counts at least one
read. -/
theorem processFeeds_count_pos (steps : List FeedStep)
    (h : ∃ step ∈ steps, stepReady step = true) :
    (processFeeds false steps).2 ≠ 0 := by
  obtain ⟨step, hs, hr⟩ := h
  induction steps with
  | nil => cases hs
  | cons a t ih =>
    have hsum : (processFeeds false (a :: t)).2
        = (processFeed false a).2 + (processFeeds false t).2 := by
      simp [processFeeds]
    rcases List.mem_cons.mp hs with h1 | h1
    · subst h1
      have := processFeed_count_of_ready step hr
      omega
    · have := ih h1
      omega

/-! The claims. -/

/-- Claim C4: a failure to resolve, read or parse the config file (all of
which propagate with the question-mark operator at main.rs lines 55-63,
before the feed loop) aborts the run with that error and an empty effect
trace: no feed is fetched, no record file is opened or written, and no
link is opened. -/
theorem C4_config_failure_aborts_before_any_feed (flag : Bool) (msg : String) :
    run flag (Except.error msg) = ([], Except.error msg) := by
  simp [run, runWith]

/-- Claim C3: main (main.rs lines 25-33) exits 0 exactly when run returns
Ok, which it does on every run whose config loaded, whatever the per-feed
outcomes in the steps; it exits 1 exactly on a fatal top-level error such
as a missing or unparsable config. -/
theorem C3_exit_zero_iff_config_ok (flag : Bool) :
    (∀ steps : List FeedStep, exit_code (run flag (Except.ok steps)).2 = 0) ∧
    (∀ msg : String, exit_code (run flag (Except.error msg)).2 = 1) := by
  constructor
  · intro steps
    cases h : ((processFeeds (only_fetch flag) steps).2 == 0 && !(only_fetch flag)) with
    | true => simp [run, runWith, exit_code, h]
    | false => simp [run, runWith, exit_code, h]
  · intro msg
    simp [run, runWith, exit_code]

/-- Claim C6: both arms of fetch_feed (main.rs lines 118-134) call rev()
before extracting links, so the sequence handed to the merge step is
exactly the reverse of the document-order link sequence, for every Atom
entry list and every RSS item list. -/
theorem C6_fetch_reverses_document_order
    (entries : List AtomEntry) (items : List RssItem) :
    atom_feed_links entries = (atom_document_links entries).reverse ∧
    rss_feed_links items = (rss_document_links items).reverse := by
  constructor
  · simp [atom_feed_links, atom_document_links, List.filterMap_reverse,
      List.map_reverse]
  · simp [rss_feed_links, rss_document_links, List.filterMap_reverse]

/-- Claim C10: when the reading list is empty, read_feed (main.rs lines
160-163) returns Ok right after opening the record file: no link is
opened, the in-memory feed (hence its read cursor) is unchanged, and no
writeRecord effect occurs, so the durable record is untouched. -/
theorem C10_empty_reading_list_is_noop (env : ReadFeedEnv) (feed : Feed)
    (hfile : env.fileOpen = Except.ok ())
    (hempty : feed.get_reading_list = []) :
    read_feed env feed = ([Effect.openDataFile feed.info.name], feed, Except.ok ()) := by
  simp [read_feed, hfile, hempty]

/-- Witness for C10 at a concrete fully-read feed. -/
theorem C10_empty_reading_list_is_noop_witness :
    read_feed
      { fileOpen := Except.ok (), openLink := Except.ok (),
        write := Except.ok (), now := 3 }
      { info := { name := "gunnerkrigg", url := "g" },
        knownLinks := ["a", "b"], readCount := 2, lastReadAt := 1,
        isReady := false }
      = ([Effect.openDataFile "gunnerkrigg"],
         { info := { name := "gunnerkrigg", url := "g" },
           knownLinks := ["a", "b"], readCount := 2, lastReadAt := 1,
           isReady := false }, Except.ok ()) :=
  C10_empty_reading_list_is_noop
    { fileOpen := Except.ok (), openLink := Except.ok (),
      write := Except.ok (), now := 3 }
    { info := { name := "gunnerkrigg", url := "g" },
      knownLinks := ["a", "b"], readCount := 2, lastReadAt := 1,
      isReady := false }
    rfl rfl

/-- Claim C5: in read_feed (main.rs lines 169-173) the open::that call
precedes feed.read() and feed.write_changes(), and its failure returns
early through the question-mark operator; so whenever opening the link
fails, the returned feed is the input feed (read cursor unchanged, the
same reading list will be produced on a later run) and no writeRecord
effect occurs. -/
theorem C5_no_commit_when_presentation_fails (env : ReadFeedEnv) (feed : Feed)
    (msg : String) (hopen : env.openLink = Except.error msg) :
    (read_feed env feed).2.1 = feed ∧
    ((read_feed env feed).2.1).get_reading_list = feed.get_reading_list ∧
    (read_feed env feed).1.filter Effect.isWrite = [] := by
  cases hf : env.fileOpen with
  | error e => simp [read_feed, hf]
  | ok u =>
    cases hl : (feed.get_reading_list.length == 0) with
    | true => simp [read_feed, hf, hl, Effect.isWrite]
    | false => simp [read_feed, hf, hl, hopen, Effect.isWrite]

/-- Witness for C5: a browser failure at a concrete feed with two unread
links leaves the feed untouched and writes nothing. -/
theorem C5_no_commit_when_presentation_fails_witness :
    (read_feed
      { fileOpen := Except.ok (), openLink := Except.error "IO error: boom",
        write := Except.ok (), now := 9 }
      { info := { name := "qc", url := "q" },
        knownLinks := ["x", "y", "z"], readCount := 1, lastReadAt := 0,
        isReady := true }).2.1
      = { info := { name := "qc", url := "q" },
          knownLinks := ["x", "y", "z"], readCount := 1, lastReadAt := 0,
          isReady := true } ∧
    ((read_feed
      { fileOpen := Except.ok (), openLink := Except.error "IO error: boom",
        write := Except.ok (), now := 9 }
      { info := { name := "qc", url := "q" },
        knownLinks := ["x", "y", "z"], readCount := 1, lastReadAt := 0,
        isReady := true }).2.1).get_reading_list
      = Feed.get_reading_list
          { info := { name := "qc", url := "q" },
            knownLinks := ["x", "y", "z"], readCount := 1, lastReadAt := 0,
            isReady := true } ∧
    (read_feed
      { fileOpen := Except.ok (), openLink := Except.error "IO error: boom",
        write := Except.ok (), now := 9 }
      { info := { name := "qc", url := "q" },
        knownLinks := ["x", "y", "z"], readCount := 1, lastReadAt := 0,
        isReady := true }).1.filter Effect.isWrite = [] :=
  C5_no_commit_when_presentation_fails
    { fileOpen := Except.ok (), openLink := Except.error "IO error: boom",
      write := Except.ok (), now := 9 }
    { info := { name := "qc", url := "q" },
      knownLinks := ["x", "y", "z"], readCount := 1, lastReadAt := 0,
      isReady := true }
    "IO error: boom" rfl

/-- Claim C7: for a nonempty reading list, read_feed (main.rs lines
164-170) performs exactly one openLink effect, on the first element of
the oldest-first reading list (the oldest unread link), and prints the
feed's name together with the batch size. -/
theorem C7_opens_exactly_oldest_unread (env : ReadFeedEnv) (feed : Feed)
    (hfile : env.fileOpen = Except.ok ())
    (hne : feed.get_reading_list ≠ []) :
    (read_feed env feed).1.filter Effect.isOpenLink
      = [Effect.openLink (feed.get_reading_list.headD "")] ∧
    Effect.printLine (feed.info.name ++ " ("
        ++ toString feed.get_reading_list.length ++ " "
        ++ plural_feeds feed.get_reading_list.length ++ ")")
      ∈ (read_feed env feed).1 := by
  have hl : (feed.get_reading_list.length == 0) = false := by
    rw [beq_eq_false_iff_ne]
    exact fun h => hne (List.length_eq_zero.mp h)
  cases ho : env.openLink with
  | error e => simp [read_feed, hfile, hl, ho, Effect.isOpenLink]
  | ok u =>
    cases hw : env.write with
    | error e => simp [read_feed, hfile, hl, ho, hw, Effect.isOpenLink]
    | ok v => simp [read_feed, hfile, hl, ho, hw, Effect.isOpenLink]

/-- Witness for C7 at a concrete feed with two unread links: the single
opened link is the oldest unread one and the batch-size line is printed. -/
theorem C7_opens_exactly_oldest_unread_witness :
    (read_feed
      { fileOpen := Except.ok (), openLink := Except.ok (),
        write := Except.ok (), now := 4 }
      { info := { name := "xkcd", url := "x" },
        knownLinks := ["a", "b", "c"], readCount := 1, lastReadAt := 0,
        isReady := true }).1.filter Effect.isOpenLink
      = [Effect.openLink ((Feed.get_reading_list
          { info := { name := "xkcd", url := "x" },
            knownLinks := ["a", "b", "c"], readCount := 1, lastReadAt := 0,
            isReady := true }).headD "")] ∧
    Effect.printLine ("xkcd" ++ " ("
        ++ toString (Feed.get_reading_list
            { info := { name := "xkcd", url := "x" },
              knownLinks := ["a", "b", "c"], readCount := 1, lastReadAt := 0,
              isReady := true }).length ++ " "
        ++ plural_feeds (Feed.get_reading_list
            { info := { name := "xkcd", url := "x" },
              knownLinks := ["a", "b", "c"], readCount := 1, lastReadAt := 0,
              isReady := true }).length ++ ")")
      ∈ (read_feed
          { fileOpen := Except.ok (), openLink := Except.ok (),
            write := Except.ok (), now := 4 }
          { info := { name := "xkcd", url := "x" },
            knownLinks := ["a", "b", "c"], readCount := 1, lastReadAt := 0,
            isReady := true }).1 :=
  C7_opens_exactly_oldest_unread
    { fileOpen := Except.ok (), openLink := Except.ok (),
      write := Except.ok (), now := 4 }
    { info := { name := "xkcd", url := "x" },
      knownLinks := ["a", "b", "c"], readCount := 1, lastReadAt := 0,
      isReady := true }
    rfl (by decide)

/-- Claim C2: the feed loop (main.rs lines 67-82) never propagates a
per-feed failure: the run's result is Ok whatever the steps; a fetch_feed
failure prints the Error-in-feed line naming the subscription (line 71),
a read_feed failure prints the same-shaped line (line 79), and the loop's
trace over an appended list of subscriptions is the two halves' traces in
order, so later subscriptions are processed regardless of earlier
failures. -/
theorem C2_per_feed_failures_are_isolated (of : Bool) (steps : List FeedStep) :
    (runWith of (Except.ok steps)).2 = Except.ok () ∧
    (∀ step ∈ steps, ∀ msg, step.fetch = Except.error msg →
      Effect.printLine ("Error in feed " ++ step.info.name ++ ": " ++ msg)
        ∈ (runWith of (Except.ok steps)).1) ∧
    (∀ step ∈ steps, ∀ feed msg, step.fetch = Except.ok feed →
      (feed.isReady && !of) = true →
      (read_feed step.readEnv feed).2.2 = Except.error msg →
      Effect.printLine ("Error in feed " ++ feed.info.name ++ ": " ++ msg)
        ∈ (runWith of (Except.ok steps)).1) ∧
    (∀ s1 s2 : List FeedStep, steps = s1 ++ s2 →
      (processFeeds of steps).1
        = (processFeeds of s1).1 ++ (processFeeds of s2).1) := by
  refine ⟨?_, ?_, ?_, ?_⟩
  · simp only [runWith]
    split <;> rfl
  · intro step hs msg hmsg
    refine mem_runWith_of_mem of steps _ (mem_processFeeds_of_mem of steps step hs _ ?_)
    simp [processFeed, hmsg]
  · intro step hs feed msg hfeed hready hread
    refine mem_runWith_of_mem of steps _ (mem_processFeeds_of_mem of steps step hs _ ?_)
    simp [processFeed, hfeed, hready, hread]
  · intro s1 s2 hsplit
    subst hsplit
    rw [processFeeds_append]

/-- A subscription whose fetch fails, used to exercise claim C2. -/
def c2FlakyFeed : Feed :=
  { info := { name := "flaky", url := "f" },
    knownLinks := ["u"], readCount := 0, lastReadAt := 0,
    isReady := true }

/-- A subscription whose fetch fails, for the C2 witness. -/
def c2Broken : FeedStep :=
  { info := { name := "broken", url := "b" },
    fetch := Except.error "Request error: timed out",
    readEnv := { fileOpen := Except.ok (), openLink := Except.ok (),
                 write := Except.ok (), now := 0 } }

/-- A subscription whose presentation fails, for the C2 witness. -/
def c2Flaky : FeedStep :=
  { info := { name := "flaky", url := "f" },
    fetch := Except.ok c2FlakyFeed,
    readEnv := { fileOpen := Except.ok (),
                 openLink := Except.error "IO error: disk full",
                 write := Except.ok (), now := 0 } }

/-- Witness for C2: one subscription whose fetch fails and one whose
presentation fails both get their error lines, and the run still ends
Ok. -/
theorem C2_per_feed_failures_are_isolated_witness :
    (runWith false (Except.ok [c2Broken, c2Flaky])).2 = Except.ok () ∧
    Effect.printLine ("Error in feed " ++ "broken" ++ ": " ++ "Request error: timed out")
      ∈ (runWith false (Except.ok [c2Broken, c2Flaky])).1 ∧
    Effect.printLine ("Error in feed " ++ "flaky" ++ ": " ++ "IO error: disk full")
      ∈ (runWith false (Except.ok [c2Broken, c2Flaky])).1 :=
  ⟨(C2_per_feed_failures_are_isolated false [c2Broken, c2Flaky]).1,
   (C2_per_feed_failures_are_isolated false [c2Broken, c2Flaky]).2.1 c2Broken
     (List.mem_cons_self _ _) "Request error: timed out" rfl,
   (C2_per_feed_failures_are_isolated false [c2Broken, c2Flaky]).2.2.1 c2Flaky
     (List.mem_cons_of_mem _ (List.mem_cons_self _ _)) c2FlakyFeed
     "IO error: disk full" rfl rfl rfl⟩

/-- Claim C8: in default mode (no fetch flag on the command line), if no
subscription was ready this run, num_read stays 0 and main.rs lines 84-87
print the informational no-new-comics line; run still returns Ok, so main
exits 0. -/
theorem C8_nothing_ready_prints_message (steps : List FeedStep)
    (h : ∀ step ∈ steps, stepReady step = false) :
    Effect.printLine "No new comics. Check back tomorrow!"
      ∈ (run false (Except.ok steps)).1 ∧
    exit_code (run false (Except.ok steps)).2 = 0 := by
  have hz : (processFeeds false steps).2 = 0 := processFeeds_count_zero false steps h
  constructor
  · simp [run, only_fetch, value_of_fetch, runWith, hz]
  · simp [run, only_fetch, value_of_fetch, runWith, hz, exit_code]

/-- A fetched but not-ready subscription, for the C8 witness. -/
def c8Step : FeedStep :=
  { info := { name := "slow", url := "s" },
    fetch := Except.ok
      { info := { name := "slow", url := "s" },
        knownLinks := ["a"], readCount := 0, lastReadAt := 0,
        isReady := false },
    readEnv := { fileOpen := Except.ok (), openLink := Except.ok (),
                 write := Except.ok (), now := 0 } }

/-- Witness for C8: a run over one fetched but not-ready subscription
prints the message and exits 0. -/
theorem C8_nothing_ready_prints_message_witness :
    Effect.printLine "No new comics. Check back tomorrow!"
      ∈ (run false (Except.ok [c8Step])).1 ∧
    exit_code (run false (Except.ok [c8Step])).2 = 0 :=
  C8_nothing_ready_prints_message [c8Step] (by decide)

/-- Claim C9: num_read is incremented at main.rs line 77, before read_feed
runs; so whenever some subscription is ready in default mode, the count
is nonzero and the run's trace is exactly the loop's trace, with no
no-new-comics line appended, whatever the presentation outcomes and
reading-list contents. -/
theorem C9_ready_feed_suppresses_message (steps : List FeedStep)
    (h : ∃ step ∈ steps, stepReady step = true) :
    (processFeeds false steps).2 ≠ 0 ∧
    (run false (Except.ok steps)).1 = (processFeeds false steps).1 := by
  have hp := processFeeds_count_pos steps h
  refine ⟨hp, ?_⟩
  have hb : ((processFeeds false steps).2 == 0) = false := by
    rw [beq_eq_false_iff_ne]
    exact hp
  simp [run, only_fetch, value_of_fetch, runWith, hb]

/-- A ready subscription whose presentation fails and whose reading list
is empty, for the C9 witness. -/
def c9Step : FeedStep :=
  { info := { name := "ready", url := "r" },
    fetch := Except.ok
      { info := { name := "ready", url := "r" },
        knownLinks := ["a"], readCount := 1, lastReadAt := 0,
        isReady := true },
    readEnv := { fileOpen := Except.error "IO error: denied",
                 openLink := Except.error "IO error: no browser",
                 write := Except.ok (), now := 0 } }

/-- Witness for C9: one ready subscription whose presentation fails still
suppresses the no-new-comics line. -/
theorem C9_ready_feed_suppresses_message_witness :
    (processFeeds false [c9Step]).2 ≠ 0 ∧
    (run false (Except.ok [c9Step])).1 = (processFeeds false [c9Step]).1 :=
  C9_ready_feed_suppresses_message [c9Step]
    ⟨c9Step, List.mem_cons_self _ _, rfl⟩

/-- A ready subscription with unread links and all collaborators
succeeding, used to exercise the fetch-only flag for claim C1. -/
def c1Step : FeedStep :=
  { info := { name := "xkcd", url := "u" },
    fetch := Except.ok
      { info := { name := "xkcd", url := "u" },
        knownLinks := ["a", "b"], readCount := 0, lastReadAt := 0,
        isReady := true },
    readEnv := { fileOpen := Except.ok (), openLink := Except.ok (),
                 write := Except.ok (), now := 5 } }

/-- Claim C1 fails on the code: main.rs line 56 computes only_fetch as
matches.value_of("fetch").is_some(), but the fetch Arg (lines 48-52) is
declared without takes_value, so clap's value_of returns None even when
the flag is passed and only_fetch is always false.  Concretely, invoking
the program with the fetch flag on a ready subscription with unread links
still presents the batch (prints the batch line, opens the oldest unread
link) and commits it (writes the record with the advanced cursor),
contradicting both the claim and the flag's own help text, which promises
to only download feeds without viewing them. -/
theorem C1_fetch_flag_is_inert :
    only_fetch true = false ∧
    run true (Except.ok [c1Step]) =
      ([Effect.fetchAttempt "xkcd" "u",
        Effect.openDataFile "xkcd",
        Effect.printLine "xkcd (2 comics)",
        Effect.openLink "a",
        Effect.writeRecord "xkcd" ["a", "b"] 2 5], Except.ok ()) :=
  ⟨rfl, rfl⟩
